import Mathlib

/-!
The package `watchfile`: local and HTTP file watchers.

A shallow embedding of `option.go`, `local_watcher.go` and `http_watcher.go`.

Conventions of the embedding.

* Go `string` and `[]byte` are both finite byte sequences and the conversions
  `string(b)` and `[]byte(s)` copy the sequence unchanged; both are embedded as
  `String`, so these conversions are the identity.
* `time.Time` is an instant on the time line, embedded as an integer offset from
  the zero `time.Time`; `time.Duration` is an integer number of nanoseconds.
* A Go `error` is a value of `Err`; the Go value `nil` is `none`.
* Standard-library functions (`md5.Sum`, `time.Parse`, `Time.Format`,
  `base64.StdEncoding.DecodeString`, `filepath.*`) are the fields of `Lib`.
* Everything a call learns from outside the process (transport results, stat and
  read results, write failures, the clock) is an explicit argument.
* `go w.watch...()` is recorded in a counter of launched polling loops; the
  callback is recorded by the list of arguments it was invoked with.
-/

namespace watchfile

/-! ## Basic types -/

deriving instance DecidableEq for Except

/-- Byte sequences (`[]byte`); Go strings are embedded the same way. -/
abbrev Bytes := String

/-- Instants (`time.Time`), as an offset from the zero `time.Time`. -/
abbrev Time := Int

/-- The method `Time.IsZero`. -/
def Time.IsZero (t : Time) : Bool := decide (t = 0)

/-- The method `Time.After`: `t.After(u)` is true when `t` is strictly later than `u`. -/
def Time.After (t u : Time) : Bool := decide (u < t)

/-- Durations (`time.Duration`) in nanoseconds. -/
abbrev Duration := Int

/-- The constant `time.Second`. -/
def Second : Duration := 1000000000

/-- The constant `time.Minute`. -/
def Minute : Duration := 60 * Second

/-- An MD5 digest, `[md5.Size]byte`. -/
abbrev Digest := Bytes

/-- The zero value of `[md5.Size]byte`: sixteen zero bytes. -/
def zeroDigest : Digest := String.mk (List.replicate 16 (Char.ofNat 0))

/-- The caller-supplied `func(error)`; a handle, since the function is opaque to the watcher. -/
abbrev Callback := Nat

/-- Go `error` values of the package: the sentinels, one constructor per
`fmt.Errorf` site, and `os` for errors handed back by `os` and `ioutil`. -/
inductive Err where
  | errRunning
  | errStopped
  | errNoPath
  | errNoCallback
  | errNoGMT
  | errNotModified
  | errNoRemoteOrLocal
  | createRequestFail (method : String) (err : String)
  | sendRequestFail (method : String) (err : String)
  | badStatus (code : Int) (status : String)
  | badLastModified (header : String)
  | badContentMD5 (header : String)
  | readBodyFail (err : String)
  | saveEtagFail (etagPath : String) (err : String)
  | os (err : String)
  deriving DecidableEq, Repr

/-! ## option.go -/

/-- Go `type Option int` (renamed: `Option` is taken in Lean). -/
structure WOption where
  bits : Int
  deriving DecidableEq, Repr

/-- Constant `CheckModTime Option = 1 << iota` at `iota = 0`. -/
def CheckModTime : WOption := ⟨1⟩
/-- Constant `CheckMD5`, `1 << 1`. -/
def CheckMD5 : WOption := ⟨2⟩
/-- Constant `CheckETag`, `1 << 2`. -/
def CheckETag : WOption := ⟨4⟩
/-- Constant `CheckHead`, `1 << 3`. -/
def CheckHead : WOption := ⟨8⟩

/-- Go `a | b` on `Option`. -/
def WOption.or (a b : WOption) : WOption := ⟨Int.lor a.bits b.bits⟩

/-- Method `func (option Option) CheckModTime() bool`. -/
def WOption.CheckModTime (option : WOption) : Bool :=
  decide (Int.land option.bits watchfile.CheckModTime.bits > 0)

/-- Method `func (option Option) CheckMD5() bool`. -/
def WOption.CheckMD5 (option : WOption) : Bool :=
  decide (Int.land option.bits watchfile.CheckMD5.bits > 0)

/-- Method `func (option Option) CheckETag() bool`. -/
def WOption.CheckETag (option : WOption) : Bool :=
  decide (Int.land option.bits watchfile.CheckETag.bits > 0)

/-- Method `func (option Option) CheckHead() bool`. -/
def WOption.CheckHead (option : WOption) : Bool :=
  decide (Int.land option.bits watchfile.CheckHead.bits > 0)

/-! ## Standard library and environment -/

/-- The standard-library functions the package calls. -/
structure Lib where
  /-- Function `md5.Sum`. -/
  md5Sum : Bytes → Digest
  /-- Function `time.Parse("Mon, 02 Jan 2006 15:04:05 MST", ·)`; `none` is a parse error. -/
  timeParse : String → Option Time
  /-- Expression `t.In(gmt).Format("Mon, 02 Jan 2006 15:04:05 MST")`. -/
  formatGMT : Time → String
  /-- Function `base64.StdEncoding.DecodeString`; `none` is a decoding error. -/
  base64Decode : String → Option Bytes
  /-- Function `filepath.Join` of two elements. -/
  filepathJoin : String → String → String
  /-- Function `filepath.Dir`. -/
  filepathDir : String → String
  /-- Function `filepath.Base`. -/
  filepathBase : String → String

/-- An HTTP request as built by `checkHead` and `download`. -/
structure Request where
  method : String
  url : String
  /-- The `If-Modified-Since` header, when set. -/
  ifModifiedSince : Option String
  deriving DecidableEq, Repr

/-- What the watcher reads of an `*http.Response`. `Header.Get` gives `""` for an
absent header; `Body` is the result of `ioutil.ReadAll(resp.Body)`. -/
structure Response where
  StatusCode : Int
  Status : String
  LastModified : String
  ContentMD5 : String
  ETag : String
  Body : Except String Bytes

/-- Outside world of one HTTP poll step. -/
structure Env where
  /-- Error of `http.NewRequest(method, url, nil)`, if any. -/
  newRequest : String → String → Option String
  /-- Result of `w.client.Do(req)`. -/
  clientDo : Request → Except String Response
  /-- Reading of `time.Now()`. -/
  now : Time
  /-- Error of `ioutil.WriteFile(path, ...)`, if any. -/
  writeFile : String → Option String
  /-- Error of `os.Chtimes(path, ...)`, if any. -/
  chtimes : String → Option String

/-- A file operation that was carried out. -/
inductive FsOp where
  | writeFile (path : String) (content : Bytes) (perm : Nat)
  | chtimes (path : String) (atime : Time) (mtime : Time)
  deriving DecidableEq, Repr

/-- The two files an `HTTPWatcher` touches, the local copy and its entity-tag
sidecar (`none`: the file does not exist), with the operations carried out so
far. A `WriteFile` or `Chtimes` that returns an error leaves the state as it is. -/
structure FS where
  localFile : Option Bytes
  localTimes : Option Time
  sidecar : Option Bytes
  ops : List FsOp
  deriving DecidableEq, Repr

/-! ## local_watcher.go -/

/-- Go `type LocalWatcher struct`. The mutex is not a field: calls are atomic steps.
`stop` is true when the channel has been made (false: a nil channel). -/
structure LocalWatcher where
  path : String
  interval : Duration
  callback : Callback
  running : Bool
  stop : Bool
  options : WOption
  modTime : Time
  checksum : Digest
  deriving DecidableEq, Repr

/-- Go `func NewLocalWatcher`. A nil callback is `none`. -/
def NewLocalWatcher (path : String) (interval : Duration) (callback : Option Callback)
    (options : WOption) : Except Err LocalWatcher :=
  if path = "" then .error .errNoPath
  else match callback with
  | none => .error .errNoCallback
  | some cb =>
    let interval := if interval < Second then Second else interval
    let options := options.or CheckModTime
    .ok { path := path, interval := interval, callback := cb, running := false,
          stop := true, options := options, modTime := 0, checksum := zeroDigest }

/-- Outside world of one step of a `LocalWatcher`: the results of `os.Stat(w.path)`
(the `ModTime()` of the info) and of `ioutil.ReadFile(w.path)`. -/
structure LocalEnv where
  stat : Except String Time
  readFile : Except String Bytes

/-- A watcher together with the number of its polling loops that are alive. -/
structure Proc (W : Type) where
  w : W
  loops : Nat

/-- Go `func (w *LocalWatcher) Start() error`. -/
def LocalWatcher.Start (lib : Lib) (p : Proc LocalWatcher) (env : LocalEnv) :
    Option Err × Proc LocalWatcher :=
  if p.w.running then (some .errRunning, p)
  else match env.stat with
  | .error err => (some (.os err), p)
  | .ok infoModTime =>
    let w := { p.w with modTime := infoModTime }
    if w.options.CheckMD5 then
      match env.readFile with
      | .error err => (some (.os err), { p with w := w })
      | .ok content =>
        let w := { w with checksum := lib.md5Sum content }
        (none, { w := { w with running := true }, loops := p.loops + 1 })
    else
      (none, { w := { w with running := true }, loops := p.loops + 1 })

/-- One pass through the `case <-time.After(w.interval)` branch of
`func (w *LocalWatcher) watchLocal()`: the new watcher and the arguments of the
callback invocations made, in order. -/
def LocalWatcher.watchLocalTick (lib : Lib) (w : LocalWatcher) (env : LocalEnv) :
    LocalWatcher × List (Option Err) :=
  match env.stat with
  | .error err => (w, [some (.os err)])
  | .ok infoModTime =>
    if !Time.After infoModTime w.modTime then (w, [])
    else if w.options.CheckMD5 then
      match env.readFile with
      | .error err => (w, [some (.os err)])
      | .ok content =>
        let checksum := lib.md5Sum content
        if checksum = w.checksum then (w, [])
        else ({ w with modTime := infoModTime, checksum := checksum }, [none])
    else
      ({ w with modTime := infoModTime, checksum := zeroDigest }, [none])

/-- What the `select` of a polling loop receives. -/
inductive Event (E : Type) where
  | tick (env : E)
  | stop

/-- Go `func (w *LocalWatcher) watchLocal()` run against the events its `select`
receives; when the events run out the loop is still waiting. The deferred
`w.running = false` runs, and the loop ends, on the first `stop`. -/
def LocalWatcher.watchLocal (lib : Lib) :
    Proc LocalWatcher → List (Event LocalEnv) → Proc LocalWatcher × List (Option Err)
  | p, [] => (p, [])
  | p, .stop :: _ => ({ w := { p.w with running := false }, loops := p.loops - 1 }, [])
  | p, .tick env :: rest =>
    let r := LocalWatcher.watchLocalTick lib p.w env
    let r2 := LocalWatcher.watchLocal lib { p with w := r.1 } rest
    (r2.1, r.2 ++ r2.2)

/-- Result of a call that may block for ever on a channel send. -/
inductive Returned where
  | returned (err : Option Err)
  | blocked
  deriving DecidableEq, Repr

/-- Go `func (w *LocalWatcher) Stop() error`. The send `w.stop <- time.Now()` is
received by a live loop, which then ends (its deferred `w.running = false` runs);
with a nil channel or no loop the send blocks. -/
def LocalWatcher.Stop (p : Proc LocalWatcher) : Returned × Proc LocalWatcher :=
  if !p.w.running then (.returned (some .errStopped), p)
  else if p.w.stop && decide (0 < p.loops) then
    (.returned none, { w := { p.w with running := false }, loops := p.loops - 1 })
  else (.blocked, p)

/-! ## http_watcher.go

The package variable `gmt` is the GMT location, or nil when it could not be
loaded; `NewHTTPWatcher` takes that as `gmtLoaded`. `checkHead` and `download`
are embedded for a process in which `gmt` is loaded (`Lib.formatGMT`), which is
what `NewHTTPWatcher` checks whenever `CheckModTime` is set. -/

/-- Go `type HTTPWatcher struct`. The mutex and the `*http.Client` are not fields:
calls are atomic steps and the transport is `Env.clientDo`. `stop` is true when
the channel has been made (false: a nil channel). -/
structure HTTPWatcher where
  remote : String
  «local» : String
  perm : Nat
  interval : Duration
  callback : Callback
  running : Bool
  stop : Bool
  options : WOption
  modTime : Time
  checksum : Digest
  etag : String
  deriving DecidableEq, Repr

/-- Go `func NewHTTPWatcher`. A nil callback is `none`. -/
def NewHTTPWatcher (gmtLoaded : Bool) (remote «local» : String) (interval : Duration)
    (perm : Nat) (callback : Option Callback) (options : WOption) : Except Err HTTPWatcher :=
  if options.CheckModTime && !gmtLoaded then .error .errNoGMT
  else if remote = "" ∨ «local» = "" then .error .errNoRemoteOrLocal
  else match callback with
  | none => .error .errNoCallback
  | some cb =>
    let interval := if interval < Minute then Minute else interval
    .ok { remote := remote, «local» := «local», perm := perm, options := options,
          interval := interval, callback := cb, running := false, stop := false,
          modTime := 0, checksum := zeroDigest, etag := "" }

/-- The expression
`filepath.Join(filepath.Dir(w.local), fmt.Sprintf(".%s.etag", filepath.Base(w.local)))`. -/
def HTTPWatcher.etagPath (lib : Lib) (w : HTTPWatcher) : String :=
  lib.filepathJoin (lib.filepathDir w.«local») ("." ++ lib.filepathBase w.«local» ++ ".etag")

/-- The request `checkHead` and `download` send: `http.NewRequest(method, w.remote, nil)`
with `If-Modified-Since` set when `w.options.CheckModTime()`. -/
def HTTPWatcher.request (lib : Lib) (w : HTTPWatcher) (method : String) : Request :=
  { method := method, url := w.remote,
    ifModifiedSince := if w.options.CheckModTime then some (lib.formatGMT w.modTime) else none }

/-- Go `func (w *HTTPWatcher) checkHead() error`. -/
def HTTPWatcher.checkHead (lib : Lib) (w : HTTPWatcher) (env : Env) : Option Err :=
  -- create request
  match env.newRequest "HEAD" w.remote with
  | some err => some (.createRequestFail "HEAD" err)
  | none =>
  let req : Request := w.request lib "HEAD"
  -- do request
  match env.clientDo req with
  | .error err => some (.sendRequestFail "HEAD" err)
  | .ok resp =>
  -- check status
  if resp.StatusCode = 304 then some .errNotModified
  else if resp.StatusCode ≠ 200 ∧ resp.StatusCode ≠ 204 then
    some (.badStatus resp.StatusCode resp.Status)
  else
  -- check modtime
  let modTimeCheck : Option Err :=
    if w.options.CheckModTime then
      if resp.LastModified ≠ "" then
        match lib.timeParse resp.LastModified with
        | none => some (.badLastModified resp.LastModified)
        | some modTime => if !Time.After modTime w.modTime then some .errNotModified else none
      else none
    else none
  match modTimeCheck with
  | some err => some err
  | none =>
  -- check md5
  let md5Check : Option Err :=
    if w.options.CheckMD5 then
      if resp.ContentMD5 ≠ "" then
        match lib.base64Decode resp.ContentMD5 with
        | none => some (.badContentMD5 resp.ContentMD5)
        | some checksum => if checksum = w.checksum then some .errNotModified else none
      else none
    else none
  match md5Check with
  | some err => some err
  | none =>
  -- check etag
  if w.options.CheckETag && (decide (resp.ETag ≠ "") && decide (w.etag = resp.ETag)) then
    some .errNotModified
  else none

/-- The save phase of `download` (from `// save phase` to the end of the function),
entered with the values the check phase computed. `w1`, `w2`, `w3` and `fs1`, `fs2`
name the successive contents of `*w` and of the files; `w.options` is never
assigned. -/
def HTTPWatcher.downloadSave (lib : Lib) (w : HTTPWatcher) (fs : FS) (env : Env)
    (modTime : Time) (etag : String) (content : Bytes) (checksum : Digest) :
    Option Err × HTTPWatcher × FS :=
  -- save file
  match env.writeFile w.«local» with
  | some err => (some (.os err), w, fs)
  | none =>
  let fs1 : FS := { fs with localFile := some content,
                            ops := fs.ops ++ [.writeFile w.«local» content w.perm] }
  let w1 : HTTPWatcher := if w.options.CheckMD5 then { w with checksum := checksum } else w
  let w2 : HTTPWatcher := if w.options.CheckModTime then { w1 with modTime := modTime } else w1
  let fs2 : FS :=
    if w.options.CheckModTime then
      match env.chtimes w.«local» with
      | some _ => fs1
      | none => { fs1 with localTimes := some modTime,
                           ops := fs1.ops ++ [.chtimes w.«local» modTime modTime] }
    else fs1
  if w.options.CheckETag then
    let w3 : HTTPWatcher := { w2 with etag := etag }
    let etagPath := w.etagPath lib
    match env.writeFile etagPath with
    | some err => (some (.saveEtagFail etagPath err), w3, fs2)
    | none =>
      (none, w3, { fs2 with sidecar := some etag,
                            ops := fs2.ops ++ [.writeFile etagPath etag w.perm] })
  else (none, w2, fs2)

/-- Go `func (w *HTTPWatcher) download() error`: the returned error, the watcher
and the files after the call. -/
def HTTPWatcher.download (lib : Lib) (w : HTTPWatcher) (fs : FS) (env : Env) :
    Option Err × HTTPWatcher × FS :=
  -- create request
  match env.newRequest "GET" w.remote with
  | some err => (some (.createRequestFail "GET" err), w, fs)
  | none =>
  let req : Request := w.request lib "GET"
  -- do request
  match env.clientDo req with
  | .error err => (some (.sendRequestFail "GET" err), w, fs)
  | .ok resp =>
  -- check phase
  -- check status
  if resp.StatusCode = 304 then (some .errNotModified, w, fs)
  else if resp.StatusCode ≠ 200 ∧ resp.StatusCode ≠ 204 then
    (some (.badStatus resp.StatusCode resp.Status), w, fs)
  else
  -- check modTime
  let modTimeCheck : Except Err Time :=
    if w.options.CheckModTime then
      if resp.LastModified ≠ "" then
        match lib.timeParse resp.LastModified with
        | none => .error (.badLastModified resp.LastModified)
        | some modTime =>
          if !Time.After modTime w.modTime then .error .errNotModified else .ok modTime
      else .ok env.now
    else .ok 0
  match modTimeCheck with
  | .error err => (some err, w, fs)
  | .ok modTime =>
  -- check etag
  let etag : String := if w.options.CheckETag then resp.ETag else ""
  if w.options.CheckETag && (decide (etag ≠ "") && decide (w.etag = etag)) then
    (some .errNotModified, w, fs)
  else
  -- read content
  match resp.Body with
  | .error err => (some (.readBodyFail err), w, fs)
  | .ok content =>
  -- check md5
  let checksum : Digest := if w.options.CheckMD5 then lib.md5Sum content else zeroDigest
  if w.options.CheckMD5 && decide (checksum = w.checksum) then (some .errNotModified, w, fs)
  else
  -- save phase
  w.downloadSave lib fs env modTime etag content checksum

/-- Go `func (w *HTTPWatcher) EnsureLocal() error`. `os.Stat(w.local)` succeeds
when the local file exists, `ioutil.ReadFile(path)` when the sidecar does. -/
def HTTPWatcher.EnsureLocal (lib : Lib) (w : HTTPWatcher) (fs : FS) (env : Env) :
    Option Err × HTTPWatcher × FS :=
  if fs.localFile.isSome then
    if w.options.CheckETag then
      match fs.sidecar with
      | some content => (none, { w with etag := content }, fs)
      | none => (none, w, fs)
    else (none, w, fs)
  else w.download lib fs env

/-- Go `func (w *HTTPWatcher) Start() error`. -/
def HTTPWatcher.Start (lib : Lib) (p : Proc HTTPWatcher) (fs : FS) (env : Env) :
    Option Err × Proc HTTPWatcher × FS :=
  let r : Option Err × HTTPWatcher × FS :=
    if Time.IsZero p.w.modTime then p.w.EnsureLocal lib fs env else (none, p.w, fs)
  match r.1 with
  | some err => (some err, { p with w := r.2.1 }, r.2.2)
  | none =>
    if r.2.1.running then (some .errRunning, { p with w := r.2.1 }, r.2.2)
    else (none, { w := r.2.1, loops := p.loops + 1 }, r.2.2)

/-- One pass through the `case <-time.After(w.interval)` branch of
`func (w *HTTPWatcher) watchHTTP()`: the new watcher and files, and the
arguments of the callback invocations made, in order. -/
def HTTPWatcher.watchHTTPTick (lib : Lib) (w : HTTPWatcher) (fs : FS) (env : Env) :
    HTTPWatcher × FS × List (Option Err) :=
  let head : Option Err := if w.options.CheckHead then w.checkHead lib env else none
  match head with
  | some err => if err = .errNotModified then (w, fs, []) else (w, fs, [some err])
  | none =>
    let r := w.download lib fs env
    match r.1 with
    | none => (r.2.1, r.2.2, [none])
    | some err => if err ≠ .errNotModified then (r.2.1, r.2.2, [some err]) else (r.2.1, r.2.2, [])

/-- Go `func (w *HTTPWatcher) watchHTTP()` run against the events its `select`
receives; when the events run out the loop is still waiting. The deferred
`w.running = false` runs, and the loop ends, on the first `stop`. -/
def HTTPWatcher.watchHTTP (lib : Lib) :
    Proc HTTPWatcher → FS → List (Event Env) → Proc HTTPWatcher × FS × List (Option Err)
  | p, fs, [] => (p, fs, [])
  | p, fs, .stop :: _ => ({ w := { p.w with running := false }, loops := p.loops - 1 }, fs, [])
  | p, fs, .tick env :: rest =>
    let r := HTTPWatcher.watchHTTPTick lib p.w fs env
    let r2 := HTTPWatcher.watchHTTP lib { p with w := r.1 } r.2.1 rest
    (r2.1, r2.2.1, r.2.2 ++ r2.2.2)

/-- Go `func (w *HTTPWatcher) Stop() error`. The send `w.stop <- time.Now()` is
received by a live loop, which then ends (its deferred `w.running = false` runs);
with a nil channel or no loop the send blocks. -/
def HTTPWatcher.Stop (p : Proc HTTPWatcher) : Returned × Proc HTTPWatcher :=
  if !p.w.running then (.returned (some .errStopped), p)
  else if p.w.stop && decide (0 < p.loops) then
    (.returned none, { w := { p.w with running := false }, loops := p.loops - 1 })
  else (.blocked, p)

/-! ## Sample inputs

A finite fragment of the standard library for evaluating the definitions on
concrete inputs: every function agrees with the Go function on the inputs named
here and is arbitrary on all others. -/

/-- The instant `Mon, 02 Jan 2006 15:04:05 GMT`. -/
def sampleTime : Time := 63271811045 * Second

/-- Fragment of `md5.Sum`: the digests of `"bar"`, `"other"` and `"test content"`. -/
def sampleMD5 (content : Bytes) : Digest :=
  if content = "bar" then
    String.mk ([55, 181, 29, 25, 74, 117, 19, 228, 91, 86, 246, 82, 79, 45, 81, 242].map Char.ofNat)
  else if content = "other" then
    String.mk ([121, 95, 50, 2, 177, 124, 182, 188, 61, 75, 119, 29, 140, 108, 158, 175].map Char.ofNat)
  else if content = "test content" then
    String.mk ([148, 115, 253, 208, 216, 128, 164, 60, 33, 183, 119, 141, 52, 135, 33, 87].map Char.ofNat)
  else zeroDigest

/-- Fragment of `time.Parse`: two well-formed dates; `"BAD TIME"` and `""` are errors. -/
def sampleTimeParse (header : String) : Option Time :=
  if header = "Mon, 02 Jan 2006 15:04:05 GMT" then some sampleTime
  else if header = "Mon, 02 Jan 2006 16:04:05 GMT" then some (sampleTime + 3600 * Second)
  else none

/-- Fragment of `Time.Format` in GMT, on the same two instants. -/
def sampleFormatGMT (t : Time) : String :=
  if t = sampleTime then "Mon, 02 Jan 2006 15:04:05 GMT"
  else if t = sampleTime + 3600 * Second then "Mon, 02 Jan 2006 16:04:05 GMT"
  else "Mon, 01 Jan 0001 00:00:00 GMT"

/-- The sample standard library. Paths: `example.txt` and `/no/such/path`. -/
def sampleLib : Lib where
  md5Sum := sampleMD5
  timeParse := sampleTimeParse
  formatGMT := sampleFormatGMT
  base64Decode := fun header => if header = "" then some "" else none
  filepathJoin := fun dir file => if dir = "." then file else dir ++ "/" ++ file
  filepathDir := fun path => if path = "/no/such/path" then "/no/such" else "."
  filepathBase := fun path => if path = "/no/such/path" then "path" else path

/-- A reply with the given status, headers and body, read in full. -/
def sampleResponse (code : Int) (lastModified eTag : String) (body : Bytes) : Response :=
  { StatusCode := code, Status := "", LastModified := lastModified, ContentMD5 := "",
    ETag := eTag, Body := .ok body }

/-- A world in which every request is answered by `resp`, the clock reads `now`,
and `WriteFile` fails exactly on the paths in `unwritable`. -/
def sampleEnv (resp : Response) (now : Time) (unwritable : List String) : Env :=
  { newRequest := fun _ _ => none
    clientDo := fun _ => .ok resp
    now := now
    writeFile := fun path => if path ∈ unwritable then some "open: no such file or directory" else none
    chtimes := fun _ => none }

/-- No local copy and no sidecar yet. -/
def emptyFS : FS := { localFile := none, localTimes := none, sidecar := none, ops := [] }

/-- The local file of the sample watcher exists, holding `foo`; no sidecar. -/
def sampleLocalFS : FS := { emptyFS with localFile := some "foo" }

/-- The watcher of `TestDownload`:
`NewHTTPWatcher("http://127.0.0.1:7878", "example.txt", 0, 0755, callback, 0)`. -/
def sampleHTTPWatcher : HTTPWatcher :=
  { remote := "http://127.0.0.1:7878", «local» := "example.txt", perm := 493,
    interval := Minute, callback := 0, running := false, stop := false, options := ⟨0⟩,
    modTime := 0, checksum := zeroDigest, etag := "" }

/-- A local watcher of `config.yaml` as `NewLocalWatcher` builds it with `options`,
after a `Start` that saw `modTime` and `checksum`. -/
def sampleLocalWatcher (options : WOption) (modTime : Time) (checksum : Digest) : LocalWatcher :=
  { path := "config.yaml", interval := Second, callback := 0, running := true, stop := true,
    options := options.or CheckModTime, modTime := modTime, checksum := checksum }

/-- Under `CheckModTime` the reply carries a Last-Modified header that
`time.Parse` rejects. -/
@[reducible] def LastModifiedMalformed (lib : Lib) (w : HTTPWatcher) (resp : Response) : Prop :=
  w.options.CheckModTime = true ∧ resp.LastModified ≠ "" ∧
    lib.timeParse resp.LastModified = none

/-- Under `CheckModTime` the reply carries a Last-Modified header that parses to a
time not strictly after the stored modTime: the modification-time check reports
not-modified. -/
@[reducible] def LastModifiedNotAfter (lib : Lib) (w : HTTPWatcher) (resp : Response) : Prop :=
  w.options.CheckModTime = true ∧ resp.LastModified ≠ "" ∧
    ∃ t, lib.timeParse resp.LastModified = some t ∧ t ≤ w.modTime

/-- Under `CheckMD5` the reply carries a Content-MD5 header that is not valid
base64. -/
@[reducible] def ContentMD5Malformed (lib : Lib) (w : HTTPWatcher) (resp : Response) : Prop :=
  w.options.CheckMD5 = true ∧ resp.ContentMD5 ≠ "" ∧
    lib.base64Decode resp.ContentMD5 = none

/-- The reply passes every check of the check phase of `download`: the status is
200 or 204; with `CheckModTime`, a Last-Modified header that is present parses to
`t`, strictly after the stored modTime; with `CheckETag`, an ETag that is present
differs from the stored one; the body is read in full as `content`; with
`CheckMD5`, its digest differs from the stored one. -/
@[reducible] def ConfirmedChange (lib : Lib) (w : HTTPWatcher) (resp : Response) (t : Time)
    (content : Bytes) : Prop :=
  (resp.StatusCode = 200 ∨ resp.StatusCode = 204) ∧
  (w.options.CheckModTime = true → resp.LastModified ≠ "" →
    lib.timeParse resp.LastModified = some t ∧ w.modTime < t) ∧
  (w.options.CheckETag = true → resp.ETag ≠ "" → w.etag ≠ resp.ETag) ∧
  resp.Body = .ok content ∧
  (w.options.CheckMD5 = true → lib.md5Sum content ≠ w.checksum)

/-! ## Theorems -/

/-- The save phase stops at a failed write of the local file, changing nothing. -/
theorem downloadSave_write_failure (lib : Lib) (w : HTTPWatcher) (fs : FS) (env : Env)
    (modTime : Time) (etag : String) (content : Bytes) (checksum : Digest) (err : String)
    (hwrite : env.writeFile w.«local» = some err) :
    w.downloadSave lib fs env modTime etag content checksum = (some (.os err), w, fs) := by
  simp [HTTPWatcher.downloadSave, hwrite]

/-- The save phase when both writes succeed. -/
theorem downloadSave_success (lib : Lib) (w : HTTPWatcher) (fs : FS) (env : Env)
    (modTime : Time) (etag : String) (content : Bytes) (checksum : Digest)
    (hwrite : env.writeFile w.«local» = none)
    (hside : w.options.CheckETag = true → env.writeFile (w.etagPath lib) = none) :
    (w.downloadSave lib fs env modTime etag content checksum).1 = none ∧
    (w.downloadSave lib fs env modTime etag content checksum).2.2.localFile = some content ∧
    (w.downloadSave lib fs env modTime etag content checksum).2.1.checksum
      = (if w.options.CheckMD5 then checksum else w.checksum) ∧
    (w.downloadSave lib fs env modTime etag content checksum).2.1.modTime
      = (if w.options.CheckModTime then modTime else w.modTime) ∧
    (w.downloadSave lib fs env modTime etag content checksum).2.1.etag
      = (if w.options.CheckETag then etag else w.etag) ∧
    (w.options.CheckETag = true →
      (w.downloadSave lib fs env modTime etag content checksum).2.2.sidecar = some etag) := by
  unfold HTTPWatcher.downloadSave
  cases hm : w.options.CheckModTime <;> cases he : w.options.CheckETag <;>
    cases hc : w.options.CheckMD5 <;> cases hch : env.chtimes w.«local» <;>
    simp_all

/-- The save phase leaves the stored modTime as it is, unless `CheckModTime` is
set and the write of the local file succeeded: then it stores the value it was
entered with. -/
theorem downloadSave_modTime (lib : Lib) (w : HTTPWatcher) (fs : FS) (env : Env)
    (modTime : Time) (etag : String) (content : Bytes) (checksum : Digest) :
    (w.downloadSave lib fs env modTime etag content checksum).2.1.modTime = w.modTime ∨
    (w.options.CheckModTime = true ∧ env.writeFile w.«local» = none ∧
      (w.downloadSave lib fs env modTime etag content checksum).2.1.modTime = modTime) := by
  unfold HTTPWatcher.downloadSave
  cases hw : env.writeFile w.«local» with
  | some err => simp
  | none =>
    cases hm : w.options.CheckModTime <;> cases he : w.options.CheckETag <;>
      cases hc : w.options.CheckMD5 <;> cases hs : env.writeFile (w.etagPath lib) <;>
      simp_all

/-- A reply that is a confirmed change takes `download` to its save phase. -/
theorem download_of_confirmed (lib : Lib) (w : HTTPWatcher) (fs : FS) (env : Env)
    (resp : Response) (t : Time) (content : Bytes)
    (hreq : env.newRequest "GET" w.remote = none)
    (hdo : env.clientDo (w.request lib "GET") = .ok resp)
    (hchange : ConfirmedChange lib w resp t content) :
    w.download lib fs env =
      w.downloadSave lib fs env
        (if w.options.CheckModTime then (if resp.LastModified = "" then env.now else t) else 0)
        (if w.options.CheckETag then resp.ETag else "") content
        (if w.options.CheckMD5 then lib.md5Sum content else zeroDigest) := by
  obtain ⟨hstatus, hmt, het, hbody, hmd5⟩ := hchange
  have h304 : resp.StatusCode ≠ 304 := by
    rcases hstatus with h | h <;> simp [h]
  have hbad : ¬ (resp.StatusCode ≠ 200 ∧ resp.StatusCode ≠ 204) := by
    rcases hstatus with h | h <;> simp [h]
  unfold HTTPWatcher.download
  simp only [hreq, hdo, h304, hbad, if_false]
  cases hm : w.options.CheckModTime <;> cases he : w.options.CheckETag <;>
    cases hc : w.options.CheckMD5 <;>
    by_cases hl : resp.LastModified = "" <;> by_cases hE : resp.ETag = "" <;>
    simp_all [Time.After]

/-- C3. If the reply to the GET request has status 304, `download` returns
`errNotModified` and leaves the watcher (modTime, checksum, etag) and the files
untouched, whatever the validator set; and a poll tick that reaches this
download invokes the callback zero times. -/
theorem download_304_not_modified (lib : Lib) (w : HTTPWatcher) (fs : FS) (env : Env)
    (resp : Response)
    (hreq : env.newRequest "GET" w.remote = none)
    (hdo : env.clientDo (w.request lib "GET") = .ok resp)
    (h304 : resp.StatusCode = 304) :
    w.download lib fs env = (some .errNotModified, w, fs) ∧
    ((w.options.CheckHead = false ∨ w.checkHead lib env = none) →
      w.watchHTTPTick lib fs env = (w, fs, [])) := by
  have hd : w.download lib fs env = (some .errNotModified, w, fs) := by
    simp [HTTPWatcher.download, hreq, hdo, h304]
  refine ⟨hd, ?_⟩
  intro hhead
  have hnone : (if w.options.CheckHead then w.checkHead lib env else none) = none := by
    rcases hhead with h | h
    · simp [h]
    · simp [h]
  simp [HTTPWatcher.watchHTTPTick, hnone, hd]

/-- Witness of C3: the `not modified` case of `TestDownload`. -/
theorem download_304_not_modified_witness :
    HTTPWatcher.download sampleLib { sampleHTTPWatcher with options := CheckModTime } emptyFS
        (sampleEnv (sampleResponse 304 "" "" "bar") 0 [])
      = (some .errNotModified, { sampleHTTPWatcher with options := CheckModTime }, emptyFS) ∧
    HTTPWatcher.watchHTTPTick sampleLib { sampleHTTPWatcher with options := CheckModTime } emptyFS
        (sampleEnv (sampleResponse 304 "" "" "bar") 0 [])
      = ({ sampleHTTPWatcher with options := CheckModTime }, emptyFS, []) :=
  let h := download_304_not_modified sampleLib { sampleHTTPWatcher with options := CheckModTime }
    emptyFS (sampleEnv (sampleResponse 304 "" "" "bar") 0 []) (sampleResponse 304 "" "" "bar")
    rfl rfl rfl
  ⟨h.1, h.2 (Or.inl (by decide))⟩

/-- C4. With modification-time checking enabled, for a reply with status 200 whose
Last-Modified header parses to a timestamp not strictly after the stored
modTime: when it is the reply to the GET request, `download` returns
`errNotModified` with the watcher (modTime, checksum, etag) and the files
untouched; and when it is the reply to the HEAD request, `checkHead` returns
`errNotModified`. -/
theorem download_modtime_not_after (lib : Lib) (w : HTTPWatcher) (fs : FS) (env : Env)
    (resp : Response) (t : Time)
    (hopt : w.options.CheckModTime = true)
    (h200 : resp.StatusCode = 200)
    (hhdr : resp.LastModified ≠ "")
    (hparse : lib.timeParse resp.LastModified = some t)
    (hle : t ≤ w.modTime) :
    (env.newRequest "GET" w.remote = none → env.clientDo (w.request lib "GET") = .ok resp →
      w.download lib fs env = (some .errNotModified, w, fs)) ∧
    (env.newRequest "HEAD" w.remote = none → env.clientDo (w.request lib "HEAD") = .ok resp →
      w.checkHead lib env = some .errNotModified) := by
  have hafter : Time.After t w.modTime = false := by
    simp [Time.After, hle]
  constructor
  · intro hreqG hdoG
    simp [HTTPWatcher.download, hreqG, hdoG, h200, hopt, hhdr, hparse, hafter]
  · intro hreqH hdoH
    simp [HTTPWatcher.checkHead, hreqH, hdoH, h200, hopt, hhdr, hparse, hafter]

/-- Witness of C4: the `modtime equal` case of `TestDownload`, and the same reply
given to a HEAD request. -/
theorem download_modtime_not_after_witness :
    HTTPWatcher.download sampleLib
        { sampleHTTPWatcher with options := CheckModTime, modTime := sampleTime } emptyFS
        (sampleEnv (sampleResponse 200 "Mon, 02 Jan 2006 15:04:05 GMT" "" "bar") sampleTime [])
      = (some .errNotModified,
         { sampleHTTPWatcher with options := CheckModTime, modTime := sampleTime }, emptyFS) ∧
    HTTPWatcher.checkHead sampleLib
        { sampleHTTPWatcher with options := CheckModTime, modTime := sampleTime }
        (sampleEnv (sampleResponse 200 "Mon, 02 Jan 2006 15:04:05 GMT" "" "bar") sampleTime [])
      = some .errNotModified :=
  let h := download_modtime_not_after sampleLib
    { sampleHTTPWatcher with options := CheckModTime, modTime := sampleTime } emptyFS
    (sampleEnv (sampleResponse 200 "Mon, 02 Jan 2006 15:04:05 GMT" "" "bar") sampleTime [])
    (sampleResponse 200 "Mon, 02 Jan 2006 15:04:05 GMT" "" "bar") sampleTime
    (by decide) rfl (by decide) (by decide) (by decide)
  ⟨h.1 rfl rfl, h.2 rfl rfl⟩

/-- C6. When the reply is a confirmed change and writing the body to the local
path fails, `download` returns the write error (not nil, not `errNotModified`),
the watcher keeps the modTime, checksum and etag it had, and no file, the
sidecar included, is written. -/
theorem download_write_failure (lib : Lib) (w : HTTPWatcher) (fs : FS) (env : Env)
    (resp : Response) (t : Time) (content : Bytes) (err : String)
    (hreq : env.newRequest "GET" w.remote = none)
    (hdo : env.clientDo (w.request lib "GET") = .ok resp)
    (hchange : ConfirmedChange lib w resp t content)
    (hwrite : env.writeFile w.«local» = some err) :
    w.download lib fs env = (some (.os err), w, fs) ∧ Err.os err ≠ Err.errNotModified := by
  refine ⟨?_, by simp⟩
  rw [download_of_confirmed lib w fs env resp t content hreq hdo hchange]
  exact downloadSave_write_failure lib w fs env _ _ _ _ err hwrite

/-- Witness of C6: all three validators enabled, stored modTime
`Mon, 02 Jan 2006 15:04:05 GMT`, stored checksum the digest of `other`, stored
etag `OLD`; the reply is newer by its Last-Modified header, carries the ETag
`FOOBAR` and the body `test content`; the write of `example.txt` fails. The
watcher keeps the three stored values and no file is written. -/
theorem download_write_failure_witness :
    HTTPWatcher.download sampleLib
        { sampleHTTPWatcher with options := ⟨7⟩, modTime := sampleTime,
                                 checksum := sampleMD5 "other", etag := "OLD" } emptyFS
        (sampleEnv (sampleResponse 200 "Mon, 02 Jan 2006 16:04:05 GMT" "FOOBAR" "test content")
          (sampleTime + 3600 * Second) ["example.txt"])
      = (some (.os "open: no such file or directory"),
         { sampleHTTPWatcher with options := ⟨7⟩, modTime := sampleTime,
                                  checksum := sampleMD5 "other", etag := "OLD" }, emptyFS) ∧
    Err.os "open: no such file or directory" ≠ Err.errNotModified :=
  download_write_failure sampleLib
    { sampleHTTPWatcher with options := ⟨7⟩, modTime := sampleTime,
                             checksum := sampleMD5 "other", etag := "OLD" } emptyFS
    (sampleEnv (sampleResponse 200 "Mon, 02 Jan 2006 16:04:05 GMT" "FOOBAR" "test content")
      (sampleTime + 3600 * Second) ["example.txt"])
    (sampleResponse 200 "Mon, 02 Jan 2006 16:04:05 GMT" "FOOBAR" "test content")
    (sampleTime + 3600 * Second) "test content" "open: no such file or directory"
    rfl rfl (by decide) (by decide)

/-- C2 as stated fails. (1) `CheckModTime` enabled, reply 200 with the header
`Last-Modified: BAD TIME`, every write would succeed, and no validator reports
not-modified: `download` returns an error, not nil, and the local file is not
written. (2) `CheckModTime` enabled, reply 200 without a Last-Modified header:
`download` returns nil and the stored modTime is the clock reading, while the
reply has no Last-Modified timestamp to parse. -/
theorem download_success_counterexample :
    (HTTPWatcher.download sampleLib { sampleHTTPWatcher with options := CheckModTime } emptyFS
        (sampleEnv (sampleResponse 200 "BAD TIME" "" "bar") sampleTime []))
      = (some (.badLastModified "BAD TIME"),
         { sampleHTTPWatcher with options := CheckModTime }, emptyFS) ∧
    (HTTPWatcher.download sampleLib { sampleHTTPWatcher with options := CheckModTime } emptyFS
        (sampleEnv (sampleResponse 200 "" "" "bar") sampleTime [])).1 = none ∧
    (HTTPWatcher.download sampleLib { sampleHTTPWatcher with options := CheckModTime } emptyFS
        (sampleEnv (sampleResponse 200 "" "" "bar") sampleTime [])).2.1.modTime = sampleTime ∧
    sampleLib.timeParse (sampleResponse 200 "" "" "bar").LastModified = none := by
  decide

/-- C2, amended. For a reply that is a confirmed change (status 200 or 204, a
Last-Modified header that, when present under `CheckModTime`, parses to a time
`t` after the stored one, no ETag or digest match, body read in full), when the
writes of the local file and of the sidecar succeed, `download` returns nil, the
local file holds exactly the body, and each enabled validator is updated:
checksum to the MD5 of the body, modTime to `t` (to the clock reading when the
reply has no Last-Modified header), etag to the reply's ETag, which is also
exactly the content of the sidecar. A validator that is not enabled keeps its
stored value. -/
theorem download_confirmed_change_saved (lib : Lib) (w : HTTPWatcher) (fs : FS) (env : Env)
    (resp : Response) (t : Time) (content : Bytes)
    (hreq : env.newRequest "GET" w.remote = none)
    (hdo : env.clientDo (w.request lib "GET") = .ok resp)
    (hchange : ConfirmedChange lib w resp t content)
    (hwrite : env.writeFile w.«local» = none)
    (hside : w.options.CheckETag = true → env.writeFile (w.etagPath lib) = none) :
    (w.download lib fs env).1 = none ∧
    (w.download lib fs env).2.2.localFile = some content ∧
    (w.download lib fs env).2.1.checksum
      = (if w.options.CheckMD5 then lib.md5Sum content else w.checksum) ∧
    (w.download lib fs env).2.1.modTime
      = (if w.options.CheckModTime then (if resp.LastModified = "" then env.now else t)
         else w.modTime) ∧
    (w.download lib fs env).2.1.etag = (if w.options.CheckETag then resp.ETag else w.etag) ∧
    (w.options.CheckETag = true →
      (w.download lib fs env).2.2.sidecar = some resp.ETag) := by
  rw [download_of_confirmed lib w fs env resp t content hreq hdo hchange]
  have h := downloadSave_success lib w fs env
    (if w.options.CheckModTime then (if resp.LastModified = "" then env.now else t) else 0)
    (if w.options.CheckETag then resp.ETag else "") content
    (if w.options.CheckMD5 then lib.md5Sum content else zeroDigest) hwrite hside
  obtain ⟨h1, h2, h3, h4, h5, h6⟩ := h
  refine ⟨h1, h2, ?_, ?_, ?_, ?_⟩
  · rw [h3]; cases w.options.CheckMD5 <;> simp
  · rw [h4]; cases w.options.CheckModTime <;> simp
  · rw [h5]; cases w.options.CheckETag <;> simp
  · intro he
    rw [h6 he, he]
    simp

/-- Witness of C2 (amended): the `full success` case of `TestDownload`, with all
three validators enabled, empty stored etag, body `test content`, ETag `FOOBAR`. -/
theorem download_confirmed_change_saved_witness :
    (HTTPWatcher.download sampleLib
        { sampleHTTPWatcher with options := ⟨7⟩, checksum := sampleMD5 "other",
                                 modTime := sampleTime } emptyFS
        (sampleEnv (sampleResponse 200 "Mon, 02 Jan 2006 16:04:05 GMT" "FOOBAR" "test content")
          (sampleTime + 3600 * Second) [])).1 = none ∧
    (HTTPWatcher.download sampleLib
        { sampleHTTPWatcher with options := ⟨7⟩, checksum := sampleMD5 "other",
                                 modTime := sampleTime } emptyFS
        (sampleEnv (sampleResponse 200 "Mon, 02 Jan 2006 16:04:05 GMT" "FOOBAR" "test content")
          (sampleTime + 3600 * Second) [])).2.2.localFile = some "test content" ∧
    (HTTPWatcher.download sampleLib
        { sampleHTTPWatcher with options := ⟨7⟩, checksum := sampleMD5 "other",
                                 modTime := sampleTime } emptyFS
        (sampleEnv (sampleResponse 200 "Mon, 02 Jan 2006 16:04:05 GMT" "FOOBAR" "test content")
          (sampleTime + 3600 * Second) [])).2.2.sidecar = some "FOOBAR" :=
  let h := download_confirmed_change_saved sampleLib
    { sampleHTTPWatcher with options := ⟨7⟩, checksum := sampleMD5 "other",
                             modTime := sampleTime } emptyFS
    (sampleEnv (sampleResponse 200 "Mon, 02 Jan 2006 16:04:05 GMT" "FOOBAR" "test content")
      (sampleTime + 3600 * Second) [])
    (sampleResponse 200 "Mon, 02 Jan 2006 16:04:05 GMT" "FOOBAR" "test content")
    (sampleTime + 3600 * Second) "test content" rfl rfl (by decide) rfl (fun _ => rfl)
  ⟨h.1, h.2.1, h.2.2.2.2.2 (by decide)⟩

/-- C5 as stated fails. (1) With `CheckModTime` and `CheckETag` enabled, stored
etag `FOOBAR`, and a reply 200 carrying `ETag: FOOBAR` together with the header
`Last-Modified: BAD TIME`, both `download` and `checkHead` return the
bad-header error, not `errNotModified`: the modification-time check runs, and
fails, before the entity tag is looked at. (2) With `CheckMD5` and `CheckETag`
enabled, stored etag `FOOBAR`, and a reply 200 carrying `ETag: FOOBAR` together
with the header `Content-MD5: !!!`, `checkHead` returns the bad-header error. -/
theorem etag_match_counterexample :
    (WOption.or CheckModTime CheckETag).CheckETag = true ∧
    (sampleResponse 200 "BAD TIME" "FOOBAR" "bar").ETag = "FOOBAR" ∧
    HTTPWatcher.download sampleLib
        { sampleHTTPWatcher with options := CheckModTime.or CheckETag, etag := "FOOBAR" } emptyFS
        (sampleEnv (sampleResponse 200 "BAD TIME" "FOOBAR" "bar") sampleTime [])
      = (some (.badLastModified "BAD TIME"),
         { sampleHTTPWatcher with options := CheckModTime.or CheckETag, etag := "FOOBAR" },
         emptyFS) ∧
    HTTPWatcher.checkHead sampleLib
        { sampleHTTPWatcher with options := CheckModTime.or CheckETag, etag := "FOOBAR" }
        (sampleEnv (sampleResponse 200 "BAD TIME" "FOOBAR" "bar") sampleTime [])
      = some (.badLastModified "BAD TIME") ∧
    (WOption.or CheckMD5 CheckETag).CheckETag = true ∧
    HTTPWatcher.checkHead sampleLib
        { sampleHTTPWatcher with options := CheckMD5.or CheckETag, etag := "FOOBAR" }
        (sampleEnv { sampleResponse 200 "" "FOOBAR" "bar" with ContentMD5 := "!!!" } sampleTime [])
      = some (.badContentMD5 "!!!") := by
  decide

/-- C5, amended. With entity-tag checking enabled and a reply with status 200 or
204 whose ETag is present and equal to the stored etag: `download` leaves the
watcher and the files untouched, and returns `errNotModified` whatever the other
enabled validators conclude, except that it returns the bad-Last-Modified error
when `CheckModTime` is set and the Last-Modified header is present and does not
parse. `checkHead` returns the same, with one further exception, which applies
when the modification-time check neither fails nor reports not-modified: if
`CheckMD5` is set and the Content-MD5 header is present and is not valid base64,
it returns the bad-Content-MD5 error. -/
theorem etag_match_not_modified (lib : Lib) (w : HTTPWatcher) (fs : FS) (env : Env)
    (resp : Response)
    (hopt : w.options.CheckETag = true)
    (hstatus : resp.StatusCode = 200 ∨ resp.StatusCode = 204)
    (hne : resp.ETag ≠ "")
    (heq : w.etag = resp.ETag) :
    (env.newRequest "GET" w.remote = none → env.clientDo (w.request lib "GET") = .ok resp →
      (¬ LastModifiedMalformed lib w resp →
        w.download lib fs env = (some .errNotModified, w, fs)) ∧
      (LastModifiedMalformed lib w resp →
        w.download lib fs env = (some (.badLastModified resp.LastModified), w, fs))) ∧
    (env.newRequest "HEAD" w.remote = none → env.clientDo (w.request lib "HEAD") = .ok resp →
      (¬ LastModifiedMalformed lib w resp →
        (¬ ContentMD5Malformed lib w resp ∨ LastModifiedNotAfter lib w resp) →
        w.checkHead lib env = some .errNotModified) ∧
      (LastModifiedMalformed lib w resp →
        w.checkHead lib env = some (.badLastModified resp.LastModified)) ∧
      (¬ LastModifiedMalformed lib w resp → ContentMD5Malformed lib w resp →
        ¬ LastModifiedNotAfter lib w resp →
        w.checkHead lib env = some (.badContentMD5 resp.ContentMD5))) := by
  have h304 : resp.StatusCode ≠ 304 := by
    rcases hstatus with h | h <;> simp [h]
  have hbad : ¬ (resp.StatusCode ≠ 200 ∧ resp.StatusCode ≠ 204) := by
    rcases hstatus with h | h <;> simp [h]
  constructor
  · intro hreqG hdoG
    unfold HTTPWatcher.download
    simp only [hreqG, hdoG, h304, hbad, if_false]
    constructor
    · intro hlm
      cases hm : w.options.CheckModTime
      · simp [hopt, hne, heq]
      · by_cases hl : resp.LastModified = ""
        · simp [hopt, hne, heq, hl]
        · cases hp : lib.timeParse resp.LastModified with
          | none => exact absurd ⟨hm, hl, hp⟩ hlm
          | some t => cases hafter : Time.After t w.modTime <;> simp [hopt, hne, heq, hl, hafter]
    · rintro ⟨hm, hl, hp⟩
      simp [hm, hl, hp]
  · intro hreqH hdoH
    unfold HTTPWatcher.checkHead
    simp only [hreqH, hdoH, h304, hbad, if_false]
    refine ⟨?_, ?_, ?_⟩
    all_goals
      cases hm : w.options.CheckModTime <;> cases hc : w.options.CheckMD5 <;>
      by_cases hl : resp.LastModified = "" <;> by_cases hM : resp.ContentMD5 = "" <;>
      cases hp : lib.timeParse resp.LastModified <;>
      cases hd : lib.base64Decode resp.ContentMD5 <;>
      simp_all [Time.After]
    all_goals (split_ifs <;> simp_all)

/-- Witness of C5 (amended). (1) All three validators enabled, the reply is newer
by its Last-Modified header and its body has another digest, yet the matching
ETag `FOOBAR` makes `download` and `checkHead` report not-modified. (2) All three
enabled, Last-Modified equal to the stored modTime and `Content-MD5: !!!`:
`checkHead` reports not-modified, the modification-time check having done so
first. (3) `CheckMD5` and `CheckETag` enabled and `Content-MD5: !!!`: `checkHead`
returns the bad-Content-MD5 error. -/
theorem etag_match_not_modified_witness :
    (HTTPWatcher.download sampleLib
        { sampleHTTPWatcher with options := ⟨7⟩, etag := "FOOBAR", modTime := sampleTime,
                                 checksum := sampleMD5 "other" } emptyFS
        (sampleEnv (sampleResponse 200 "Mon, 02 Jan 2006 16:04:05 GMT" "FOOBAR" "bar")
          sampleTime [])
      = (some .errNotModified,
         { sampleHTTPWatcher with options := ⟨7⟩, etag := "FOOBAR", modTime := sampleTime,
                                  checksum := sampleMD5 "other" }, emptyFS) ∧
     HTTPWatcher.checkHead sampleLib
        { sampleHTTPWatcher with options := ⟨7⟩, etag := "FOOBAR", modTime := sampleTime,
                                 checksum := sampleMD5 "other" }
        (sampleEnv (sampleResponse 200 "Mon, 02 Jan 2006 16:04:05 GMT" "FOOBAR" "bar")
          sampleTime [])
      = some .errNotModified) ∧
    HTTPWatcher.checkHead sampleLib
        { sampleHTTPWatcher with options := ⟨7⟩, etag := "FOOBAR", modTime := sampleTime,
                                 checksum := sampleMD5 "other" }
        (sampleEnv { sampleResponse 200 "Mon, 02 Jan 2006 15:04:05 GMT" "FOOBAR" "bar" with
                     ContentMD5 := "!!!" } sampleTime [])
      = some .errNotModified ∧
    HTTPWatcher.checkHead sampleLib
        { sampleHTTPWatcher with options := CheckMD5.or CheckETag, etag := "FOOBAR" }
        (sampleEnv { sampleResponse 200 "" "FOOBAR" "bar" with ContentMD5 := "!!!" }
          sampleTime [])
      = some (.badContentMD5 "!!!") :=
  let h1 := etag_match_not_modified sampleLib
    { sampleHTTPWatcher with options := ⟨7⟩, etag := "FOOBAR", modTime := sampleTime,
                             checksum := sampleMD5 "other" } emptyFS
    (sampleEnv (sampleResponse 200 "Mon, 02 Jan 2006 16:04:05 GMT" "FOOBAR" "bar") sampleTime [])
    (sampleResponse 200 "Mon, 02 Jan 2006 16:04:05 GMT" "FOOBAR" "bar")
    (by decide) (Or.inl rfl) (by decide) rfl
  let h2 := etag_match_not_modified sampleLib
    { sampleHTTPWatcher with options := ⟨7⟩, etag := "FOOBAR", modTime := sampleTime,
                             checksum := sampleMD5 "other" } emptyFS
    (sampleEnv { sampleResponse 200 "Mon, 02 Jan 2006 15:04:05 GMT" "FOOBAR" "bar" with
                 ContentMD5 := "!!!" } sampleTime [])
    { sampleResponse 200 "Mon, 02 Jan 2006 15:04:05 GMT" "FOOBAR" "bar" with
      ContentMD5 := "!!!" }
    (by decide) (Or.inl rfl) (by decide) rfl
  let h3 := etag_match_not_modified sampleLib
    { sampleHTTPWatcher with options := CheckMD5.or CheckETag, etag := "FOOBAR" } emptyFS
    (sampleEnv { sampleResponse 200 "" "FOOBAR" "bar" with ContentMD5 := "!!!" } sampleTime [])
    { sampleResponse 200 "" "FOOBAR" "bar" with ContentMD5 := "!!!" }
    (by decide) (Or.inl rfl) (by decide) rfl
  ⟨⟨(h1.1 rfl rfl).1 (by decide), (h1.2 rfl rfl).1 (by decide) (Or.inl (by decide))⟩,
   (h2.2 rfl rfl).1 (by decide)
     (Or.inr ⟨by decide, by decide, sampleTime, by decide, by decide⟩),
   (h3.2 rfl rfl).2.2 (by decide) (by decide) (fun h => absurd h.1 (by decide))⟩

/-- C7. In a poll tick of the local watcher where `os.Stat` succeeds: with
content-hash checking enabled, if the read succeeds and the MD5 of the bytes read
equals the stored checksum, the callback is not invoked and the watcher (modTime
and checksum included) is unchanged, whatever modification time was reported;
and, for any validator set, if the reported modification time is not strictly
after the stored modTime, the callback is not invoked. -/
theorem watchLocalTick_unchanged (lib : Lib) (w : LocalWatcher) (env : LocalEnv) (t : Time)
    (hstat : env.stat = .ok t) :
    (∀ content, w.options.CheckMD5 = true → env.readFile = .ok content →
        lib.md5Sum content = w.checksum → w.watchLocalTick lib env = (w, [])) ∧
    (t ≤ w.modTime → w.watchLocalTick lib env = (w, [])) := by
  constructor
  · intro content hopt hread hsum
    unfold LocalWatcher.watchLocalTick
    cases hafter : Time.After t w.modTime <;> simp [hstat, hafter, hopt, hread, hsum]
  · intro hle
    have hafter : Time.After t w.modTime = false := by simp [Time.After, hle]
    simp [LocalWatcher.watchLocalTick, hstat, hafter]

/-- Witness of C7: a touched file (later modification time, same bytes) with
`CheckMD5`; and a file whose modification time did not move, without `CheckMD5`. -/
theorem watchLocalTick_unchanged_witness :
    LocalWatcher.watchLocalTick sampleLib (sampleLocalWatcher CheckMD5 sampleTime (sampleMD5 "bar"))
        { stat := .ok (sampleTime + 3600 * Second), readFile := .ok "bar" }
      = (sampleLocalWatcher CheckMD5 sampleTime (sampleMD5 "bar"), []) ∧
    LocalWatcher.watchLocalTick sampleLib (sampleLocalWatcher ⟨0⟩ sampleTime zeroDigest)
        { stat := .ok sampleTime, readFile := .ok "other" }
      = (sampleLocalWatcher ⟨0⟩ sampleTime zeroDigest, []) :=
  ⟨(watchLocalTick_unchanged sampleLib (sampleLocalWatcher CheckMD5 sampleTime (sampleMD5 "bar"))
      { stat := .ok (sampleTime + 3600 * Second), readFile := .ok "bar" }
      (sampleTime + 3600 * Second) rfl).1 "bar" (by decide) rfl (by decide),
   (watchLocalTick_unchanged sampleLib (sampleLocalWatcher ⟨0⟩ sampleTime zeroDigest)
      { stat := .ok sampleTime, readFile := .ok "other" } sampleTime rfl).2 (by decide)⟩

/-- The clamp `if interval < floor { interval = floor }` computes a maximum. -/
theorem clamp_eq_max (interval floor : Int) :
    (if interval < floor then floor else interval) = max interval floor ∧
    floor ≤ (if interval < floor then floor else interval) ∧
    (floor ≤ interval → (if interval < floor then floor else interval) = interval) := by
  by_cases h : interval < floor
  · rw [if_pos h]
    exact ⟨(max_eq_right (le_of_lt h)).symm, le_refl _, fun h2 => le_antisymm h2 (le_of_lt h)⟩
  · rw [if_neg h]
    exact ⟨(max_eq_left (not_lt.mp h)).symm, not_lt.mp h, fun _ => rfl⟩

/-- C9. Every successful construction stores the larger of the requested interval
and the floor of the watcher type, `time.Second` for `NewLocalWatcher` and
`time.Minute` for `NewHTTPWatcher`, for every requested interval, zero and
negative ones included: the stored interval is never below the floor and a
request at or above the floor is stored unchanged. -/
theorem interval_clamped (gmtLoaded : Bool) (path remote «local» : String)
    (interval : Duration) (perm : Nat) (callback : Option Callback) (options : WOption) :
    (∀ w, NewLocalWatcher path interval callback options = .ok w →
      w.interval = max interval Second ∧ Second ≤ w.interval ∧
      (Second ≤ interval → w.interval = interval)) ∧
    (∀ w, NewHTTPWatcher gmtLoaded remote «local» interval perm callback options = .ok w →
      w.interval = max interval Minute ∧ Minute ≤ w.interval ∧
      (Minute ≤ interval → w.interval = interval)) := by
  constructor
  · intro w hw
    unfold NewLocalWatcher at hw
    split at hw
    · simp at hw
    · split at hw
      · simp at hw
      · simp only [Except.ok.injEq] at hw
        subst hw
        exact clamp_eq_max interval Second
  · intro w hw
    unfold NewHTTPWatcher at hw
    split at hw
    · simp at hw
    · split at hw
      · simp at hw
      · split at hw
        · simp at hw
        · simp only [Except.ok.injEq] at hw
          subst hw
          exact clamp_eq_max interval Minute

/-- Witness of C9: the interval 0 of `TestNewHTTPWriter` becomes one minute, and a
negative interval becomes one second for a local watcher. -/
theorem interval_clamped_witness :
    sampleHTTPWatcher.interval = max 0 Minute ∧
    ({ sampleLocalWatcher ⟨0⟩ 0 zeroDigest with running := false }).interval
      = max (-5) Second :=
  ⟨((interval_clamped true "config.yaml" "http://127.0.0.1:7878" "example.txt" 0 493
      (some 0) ⟨0⟩).2 sampleHTTPWatcher (by decide)).1,
   ((interval_clamped true "config.yaml" "http://127.0.0.1:7878" "example.txt" (-5) 493
      (some 0) ⟨0⟩).1 { sampleLocalWatcher ⟨0⟩ 0 zeroDigest with running := false }
      (by decide)).1⟩

/-- C8 as stated fails: with `gmt` not loaded and `CheckModTime` requested,
`NewHTTPWatcher` answers `errNoGMT` before it looks at the other arguments, so an
empty target with a callback present does not yield `errNoRemoteOrLocal`, and a
nil callback with non-empty targets does not yield `errNoCallback`. -/
theorem constructor_errors_counterexample :
    NewHTTPWatcher false "" "" 0 493 (some 0) CheckModTime = .error .errNoGMT ∧
    NewHTTPWatcher false "" "" 0 493 (some 0) CheckModTime ≠ .error .errNoRemoteOrLocal ∧
    NewHTTPWatcher false "http://www.example.org" "example.txt" 0 493 none CheckModTime
      = .error .errNoGMT ∧
    NewHTTPWatcher false "http://www.example.org" "example.txt" 0 493 none CheckModTime
      ≠ .error .errNoCallback := by
  decide

/-- C8, amended. The constructors are functions of their arguments alone (no file
or network access). `NewLocalWatcher` fails iff the path is empty or the callback
is nil: `errNoPath` for an empty path, else `errNoCallback`. `NewHTTPWatcher`
fails iff the remote URL is empty, the local path is empty, the callback is nil,
or `CheckModTime` is requested while `gmt` is not loaded; the last condition is
tested first and gives `errNoGMT` whatever the other arguments are; otherwise an
empty target gives `errNoRemoteOrLocal`, and otherwise a nil callback gives
`errNoCallback`. In every other case a watcher is returned. -/
theorem constructor_errors (gmtLoaded : Bool) (path remote «local» : String)
    (interval : Duration) (perm : Nat) (callback : Option Callback) (options : WOption) :
    ((∃ e, NewLocalWatcher path interval callback options = .error e) ↔
      (path = "" ∨ callback = none)) ∧
    (path = "" → NewLocalWatcher path interval callback options = .error .errNoPath) ∧
    (path ≠ "" → callback = none →
      NewLocalWatcher path interval callback options = .error .errNoCallback) ∧
    ((∃ e, NewHTTPWatcher gmtLoaded remote «local» interval perm callback options = .error e) ↔
      (remote = "" ∨ «local» = "" ∨ callback = none ∨
        (options.CheckModTime = true ∧ gmtLoaded = false))) ∧
    (options.CheckModTime = true → gmtLoaded = false →
      NewHTTPWatcher gmtLoaded remote «local» interval perm callback options
        = .error .errNoGMT) ∧
    (¬ (options.CheckModTime = true ∧ gmtLoaded = false) → (remote = "" ∨ «local» = "") →
      NewHTTPWatcher gmtLoaded remote «local» interval perm callback options
        = .error .errNoRemoteOrLocal) ∧
    (¬ (options.CheckModTime = true ∧ gmtLoaded = false) → remote ≠ "" → «local» ≠ "" →
      callback = none →
      NewHTTPWatcher gmtLoaded remote «local» interval perm callback options
        = .error .errNoCallback) := by
  refine ⟨?_, ?_, ?_, ?_, ?_, ?_, ?_⟩
  · unfold NewLocalWatcher
    by_cases hp : path = "" <;> cases callback <;> simp [hp]
  · intro hp
    simp [NewLocalWatcher, hp]
  · intro hp hc
    simp [NewLocalWatcher, hp, hc]
  · unfold NewHTTPWatcher
    cases hm : options.CheckModTime <;> cases gmtLoaded <;>
      by_cases hr : remote = "" <;> by_cases hl : «local» = "" <;> cases callback <;>
      simp [hr, hl]
  · intro hm hg
    simp [NewHTTPWatcher, hm, hg]
  · intro hn ht
    unfold NewHTTPWatcher
    cases hm : options.CheckModTime <;> cases hg : gmtLoaded <;> simp_all
  · intro hn hr hl hc
    unfold NewHTTPWatcher
    cases hm : options.CheckModTime <;> cases hg : gmtLoaded <;> simp_all

/-- Witness of C8 (amended): the three failing constructions of `TestNewHTTPWriter`
that do not depend on the order of the checks. -/
theorem constructor_errors_witness :
    NewLocalWatcher "" 0 (some 0) ⟨0⟩ = .error .errNoPath ∧
    NewHTTPWatcher true "" "" 0 493 (some 0) ⟨0⟩ = .error .errNoRemoteOrLocal ∧
    NewHTTPWatcher true "http://127.0.0.1:7878" "example.txt" 0 493 none ⟨0⟩
      = .error .errNoCallback ∧
    NewHTTPWatcher false "http://www.example.org" "example.txt" 0 493 (some 0) CheckModTime
      = .error .errNoGMT :=
  ⟨(constructor_errors true "" "" "" 0 493 (some 0) ⟨0⟩).2.1 rfl,
   (constructor_errors true "" "" "" 0 493 (some 0) ⟨0⟩).2.2.2.2.2.1 (by decide) (Or.inl rfl),
   (constructor_errors true "" "http://127.0.0.1:7878" "example.txt" 0 493 none ⟨0⟩).2.2.2.2.2.2
      (by decide) (by decide) (by decide) rfl,
   (constructor_errors false "" "http://www.example.org" "example.txt" 0 493 (some 0)
      CheckModTime).2.2.2.2.1 (by decide) rfl⟩

/-- C10 as stated fails: `CheckModTime` enabled, stored modTime
`Mon, 02 Jan 2006 16:04:05 GMT`, reply 200 without a Last-Modified header, clock
reading `Mon, 02 Jan 2006 15:04:05 GMT`: `download` succeeds and the stored
modTime becomes the clock reading, one hour earlier than before. -/
theorem modTime_advances_counterexample :
    (HTTPWatcher.download sampleLib
        { sampleHTTPWatcher with options := CheckModTime, modTime := sampleTime + 3600 * Second }
        emptyFS (sampleEnv (sampleResponse 200 "" "" "bar") sampleTime [])).1 = none ∧
    (HTTPWatcher.download sampleLib
        { sampleHTTPWatcher with options := CheckModTime, modTime := sampleTime + 3600 * Second }
        emptyFS (sampleEnv (sampleResponse 200 "" "" "bar") sampleTime [])).2.1.modTime
      = sampleTime ∧
    sampleTime < (sampleTime + 3600 * Second : Time) := by
  decide

/-- C10, amended. The stored modTime after a `LocalWatcher` tick is never earlier
than before it, for every stat and read result; and the stored modTime after an
`HTTPWatcher.download` call is never earlier than before it, whether the call
succeeds, reports not-modified or fails, with one proviso: in the case where
`CheckModTime` is set, the reply has status 200 or 204 and no Last-Modified
header, no ETag or digest match stops the call, the body is read and the local
file is written, the clock reading is not earlier than the stored modTime. -/
theorem modTime_advances (lib : Lib) (lw : LocalWatcher) (lenv : LocalEnv)
    (w : HTTPWatcher) (fs : FS) (env : Env)
    (hclock : ∀ resp content, w.options.CheckModTime = true →
      env.newRequest "GET" w.remote = none →
      env.clientDo (w.request lib "GET") = .ok resp →
      (resp.StatusCode = 200 ∨ resp.StatusCode = 204) →
      resp.LastModified = "" →
      (w.options.CheckETag = true → resp.ETag ≠ "" → w.etag ≠ resp.ETag) →
      resp.Body = .ok content →
      (w.options.CheckMD5 = true → lib.md5Sum content ≠ w.checksum) →
      env.writeFile w.«local» = none →
      w.modTime ≤ env.now) :
    lw.modTime ≤ (lw.watchLocalTick lib lenv).1.modTime ∧
    w.modTime ≤ (w.download lib fs env).2.1.modTime := by
  constructor
  · unfold LocalWatcher.watchLocalTick
    cases hs : lenv.stat with
    | error e => simp
    | ok t =>
      cases hafter : Time.After t lw.modTime
      · simp [hafter]
      · have hlt : lw.modTime < t := by simpa [Time.After] using hafter
        cases ho : lw.options.CheckMD5
        · simp [hafter, le_of_lt hlt]
        · cases hr : lenv.readFile with
          | error e => simp [hafter]
          | ok content =>
            by_cases hc : lib.md5Sum content = lw.checksum <;> simp [hafter, hc, le_of_lt hlt]
  · have key : ∀ modTime etag content checksum,
        (w.options.CheckModTime = true → env.writeFile w.«local» = none →
          w.modTime ≤ modTime) →
        w.modTime ≤ (w.downloadSave lib fs env modTime etag content checksum).2.1.modTime := by
      intro modTime etag content checksum hle
      rcases downloadSave_modTime lib w fs env modTime etag content checksum
        with h | ⟨hm, hw, h⟩
      · rw [h]
      · rw [h]; exact hle hm hw
    cases hreq : env.newRequest "GET" w.remote with
    | some e => simp [HTTPWatcher.download, hreq]
    | none =>
      cases hdo : env.clientDo (w.request lib "GET") with
      | error e => simp [HTTPWatcher.download, hreq, hdo]
      | ok resp =>
        unfold HTTPWatcher.download
        simp only [hreq, hdo]
        by_cases h304 : resp.StatusCode = 304
        · simp [h304]
        by_cases hbad : resp.StatusCode ≠ 200 ∧ resp.StatusCode ≠ 204
        · simp [h304, hbad]
        have hstatus : resp.StatusCode = 200 ∨ resp.StatusCode = 204 := by
          by_cases h : resp.StatusCode = 200
          · exact Or.inl h
          · right
            by_contra h2
            exact hbad ⟨h, h2⟩
        simp only [h304, hbad, if_false]
        cases hm : w.options.CheckModTime
        · simp only [Bool.false_eq_true, if_false]
          repeat' split
          all_goals first
            | exact le_refl _
            | (apply key; intro h; simp [hm] at h)
        · by_cases hl : resp.LastModified = ""
          · simp only [hl, ne_eq, not_true_eq_false, if_true, if_false]
            repeat' split
            all_goals first
              | exact le_refl _
              | (apply key; intro _ hw
                 refine hclock resp _ hm hreq hdo hstatus hl ?_ (by assumption) ?_ hw <;>
                   simp_all)
          · cases hp : lib.timeParse resp.LastModified with
            | none =>
              simp only [hl, ne_eq, not_false_eq_true, if_true]
              exact le_refl _
            | some t =>
              cases hafter : Time.After t w.modTime with
              | false =>
                simp only [hl, hafter, ne_eq, not_false_eq_true, if_true, Bool.not_false]
                exact le_refl _
              | true =>
                have hlt : w.modTime < t := by simpa [Time.After] using hafter
                simp only [hl, hafter, ne_eq, not_false_eq_true, if_true, Bool.not_true,
                  Bool.false_eq_true, if_false]
                repeat' split
                all_goals first
                  | exact le_refl _
                  | (apply key; intro _ _; exact le_of_lt hlt)

/-- Witness of C10 (amended): a local tick that sees a later modification time; a
download of a reply without Last-Modified header while the clock reads one hour
after the stored modTime; and a download answered 304 while the clock reads one
hour before the stored modTime, where the proviso asks nothing. -/
theorem modTime_advances_witness :
    (sampleTime ≤ (LocalWatcher.watchLocalTick sampleLib
        (sampleLocalWatcher ⟨0⟩ sampleTime zeroDigest)
        { stat := .ok (sampleTime + 3600 * Second), readFile := .ok "bar" }).1.modTime ∧
     sampleTime ≤ (HTTPWatcher.download sampleLib
        { sampleHTTPWatcher with options := CheckModTime, modTime := sampleTime } emptyFS
        (sampleEnv (sampleResponse 200 "" "" "bar") (sampleTime + 3600 * Second) [])).2.1.modTime) ∧
    sampleTime + 3600 * Second ≤ (HTTPWatcher.download sampleLib
        { sampleHTTPWatcher with options := CheckModTime, modTime := sampleTime + 3600 * Second }
        emptyFS (sampleEnv (sampleResponse 304 "" "" "bar") sampleTime [])).2.1.modTime :=
  ⟨modTime_advances sampleLib (sampleLocalWatcher ⟨0⟩ sampleTime zeroDigest)
      { stat := .ok (sampleTime + 3600 * Second), readFile := .ok "bar" }
      { sampleHTTPWatcher with options := CheckModTime, modTime := sampleTime } emptyFS
      (sampleEnv (sampleResponse 200 "" "" "bar") (sampleTime + 3600 * Second) [])
      (fun _ _ _ _ _ _ _ _ _ _ _ => by decide),
   (modTime_advances sampleLib (sampleLocalWatcher ⟨0⟩ sampleTime zeroDigest)
      { stat := .ok (sampleTime + 3600 * Second), readFile := .ok "bar" }
      { sampleHTTPWatcher with options := CheckModTime, modTime := sampleTime + 3600 * Second }
      emptyFS (sampleEnv (sampleResponse 304 "" "" "bar") sampleTime [])
      (fun resp _ _ _ hdo hs _ _ _ _ _ => by
        have h : sampleResponse 304 "" "" "bar" = resp := Except.ok.inj hdo
        subst h
        exact absurd hs (by decide))).2⟩

/-! ### Lifecycle -/

/-- Calling `LocalWatcher.Start` on a running watcher returns `errRunning` and changes
nothing: no second polling loop is launched. -/
theorem LocalWatcher.Start_of_running (lib : Lib) (p : Proc LocalWatcher) (env : LocalEnv)
    (h : p.w.running = true) : LocalWatcher.Start lib p env = (some .errRunning, p) := by
  simp [LocalWatcher.Start, h]

/-- A `LocalWatcher.Start` that returns nil has set `running` and launched one loop. -/
theorem LocalWatcher.Start_ok (lib : Lib) (p : Proc LocalWatcher) (env : LocalEnv)
    (h : (LocalWatcher.Start lib p env).1 = none) :
    (LocalWatcher.Start lib p env).2.w.running = true ∧
    (LocalWatcher.Start lib p env).2.loops = p.loops + 1 := by
  unfold LocalWatcher.Start at h ⊢
  cases hr : p.w.running <;> cases hs : env.stat <;> cases ho : p.w.options.CheckMD5 <;>
    cases hf : env.readFile <;> simp_all

/-- A tick of the local polling loop does not touch `running`. -/
theorem LocalWatcher.watchLocalTick_running (lib : Lib) (w : LocalWatcher) (env : LocalEnv) :
    (w.watchLocalTick lib env).1.running = w.running := by
  unfold LocalWatcher.watchLocalTick
  simp only []
  repeat' split
  all_goals rfl

/-- Poll ticks alone change neither `running` nor the number of live loops. -/
theorem LocalWatcher.watchLocal_ticks (lib : Lib) (p : Proc LocalWatcher)
    (envs : List LocalEnv) :
    (LocalWatcher.watchLocal lib p (envs.map Event.tick)).1.w.running = p.w.running ∧
    (LocalWatcher.watchLocal lib p (envs.map Event.tick)).1.loops = p.loops := by
  induction envs generalizing p with
  | nil => exact ⟨rfl, rfl⟩
  | cons env rest ih =>
    simp only [List.map_cons, LocalWatcher.watchLocal]
    have h := ih { p with w := (LocalWatcher.watchLocalTick lib p.w env).1 }
    exact ⟨h.1.trans (LocalWatcher.watchLocalTick_running lib p.w env), h.2⟩

/-- After a `LocalWatcher.Start` that returned nil and any number of poll ticks
without a `Stop`, a further `Start` returns `errRunning` and launches no loop. -/
theorem LocalWatcher.Start_again_rejected (lib : Lib) (p : Proc LocalWatcher)
    (env env2 : LocalEnv) (envs : List LocalEnv)
    (h : (LocalWatcher.Start lib p env).1 = none) :
    LocalWatcher.Start lib
        (LocalWatcher.watchLocal lib (LocalWatcher.Start lib p env).2 (envs.map Event.tick)).1 env2
      = (some .errRunning,
         (LocalWatcher.watchLocal lib (LocalWatcher.Start lib p env).2 (envs.map Event.tick)).1) ∧
    (LocalWatcher.watchLocal lib (LocalWatcher.Start lib p env).2 (envs.map Event.tick)).1.loops
      = p.loops + 1 := by
  have hs := LocalWatcher.Start_ok lib p env h
  have ht := LocalWatcher.watchLocal_ticks lib (LocalWatcher.Start lib p env).2 envs
  exact ⟨LocalWatcher.Start_of_running lib _ env2 (ht.1.trans hs.1), ht.2.trans hs.2⟩

/-- Calling `LocalWatcher.Stop` on a watcher that is not running returns `errStopped`. -/
theorem LocalWatcher.Stop_local_not_running (p : Proc LocalWatcher) (h : p.w.running = false) :
    LocalWatcher.Stop p = (.returned (some .errStopped), p) := by
  simp [LocalWatcher.Stop, h]

/-- Calling `HTTPWatcher.Stop` on a watcher that is not running returns `errStopped`. -/
theorem HTTPWatcher.Stop_http_not_running (p : Proc HTTPWatcher) (h : p.w.running = false) :
    HTTPWatcher.Stop p = (.returned (some .errStopped), p) := by
  simp [HTTPWatcher.Stop, h]

/-- The save phase of `download` does not touch `running`. -/
theorem HTTPWatcher.downloadSave_running (lib : Lib) (w : HTTPWatcher) (fs : FS) (env : Env)
    (modTime : Time) (etag : String) (content : Bytes) (checksum : Digest) :
    (w.downloadSave lib fs env modTime etag content checksum).2.1.running = w.running := by
  unfold HTTPWatcher.downloadSave
  cases hw : env.writeFile w.«local» with
  | some err => simp
  | none =>
    cases hm : w.options.CheckModTime <;> cases he : w.options.CheckETag <;>
      cases hc : w.options.CheckMD5 <;> cases hs : env.writeFile (w.etagPath lib) <;>
      simp_all

/-- No path through `download` touches `running`. -/
theorem HTTPWatcher.download_running (lib : Lib) (w : HTTPWatcher) (fs : FS) (env : Env) :
    (w.download lib fs env).2.1.running = w.running := by
  unfold HTTPWatcher.download
  simp only []
  repeat' split
  all_goals first
    | rfl
    | exact HTTPWatcher.downloadSave_running lib w fs env _ _ _ _

/-- No path through `HTTPWatcher.Start` sets `running`: the flag after the call is
the flag before it, also when `Start` returns nil and launches the loop. -/
theorem HTTPWatcher.Start_running (lib : Lib) (p : Proc HTTPWatcher) (fs : FS) (env : Env) :
    (HTTPWatcher.Start lib p fs env).2.1.w.running = p.w.running := by
  have hr : (if Time.IsZero p.w.modTime then p.w.EnsureLocal lib fs env
      else (none, p.w, fs)).2.1.running = p.w.running := by
    split
    · unfold HTTPWatcher.EnsureLocal
      repeat' split
      all_goals first
        | rfl
        | exact HTTPWatcher.download_running lib p.w fs env
    · rfl
  unfold HTTPWatcher.Start
  simp only []
  generalize (if Time.IsZero p.w.modTime then p.w.EnsureLocal lib fs env
    else (none, p.w, fs)) = r at hr ⊢
  obtain ⟨e, w', fs'⟩ := r
  cases e with
  | some err => exact hr
  | none =>
    simp only []
    split <;> exact hr

/-- Every `HTTPWatcher.Start` on a watcher whose flag is false that gets past
`EnsureLocal` returns nil and launches one more polling loop, however many are
alive already. -/
theorem HTTPWatcher.Start_launches (lib : Lib) (p : Proc HTTPWatcher) (fs : FS) (env : Env)
    (hrun : p.w.running = false)
    (hens : (if Time.IsZero p.w.modTime then p.w.EnsureLocal lib fs env
      else (none, p.w, fs)).1 = none) :
    (HTTPWatcher.Start lib p fs env).1 = none ∧
    (HTTPWatcher.Start lib p fs env).2.1.loops = p.loops + 1 ∧
    (HTTPWatcher.Start lib p fs env).2.1.w.running = false := by
  have hr := HTTPWatcher.Start_running lib p fs env
  rw [hrun] at hr
  unfold HTTPWatcher.Start at hr ⊢
  simp only [] at hr ⊢
  generalize (if Time.IsZero p.w.modTime then p.w.EnsureLocal lib fs env
    else (none, p.w, fs)) = r at hens hr ⊢
  obtain ⟨e, w', fs'⟩ := r
  simp only [] at hens
  subst hens
  simp only [] at hr ⊢
  cases hw : w'.running
  · simp [hw]
  · simp [hw] at hr

/-- C1 (failing input). `w, _ := NewHTTPWatcher("http://127.0.0.1:7878",
"example.txt", 0, 0755, callback, 0)` with `example.txt` present: the first
`w.Start()` returns nil and launches the polling loop but leaves `running`
false; a second `w.Start()` therefore returns nil again, not `errRunning`, and
launches a second polling loop; and `w.Stop()` on the started watcher returns
`errStopped`. -/
theorem http_start_twice :
    NewHTTPWatcher true "http://127.0.0.1:7878" "example.txt" 0 493 (some 0) ⟨0⟩
      = .ok sampleHTTPWatcher ∧
    (HTTPWatcher.Start sampleLib ⟨sampleHTTPWatcher, 0⟩ sampleLocalFS
      (sampleEnv (sampleResponse 200 "" "" "foo") sampleTime [])).1 = none ∧
    (HTTPWatcher.Start sampleLib ⟨sampleHTTPWatcher, 0⟩ sampleLocalFS
      (sampleEnv (sampleResponse 200 "" "" "foo") sampleTime [])).2.1.loops = 1 ∧
    (HTTPWatcher.Start sampleLib ⟨sampleHTTPWatcher, 0⟩ sampleLocalFS
      (sampleEnv (sampleResponse 200 "" "" "foo") sampleTime [])).2.1.w.running = false ∧
    (HTTPWatcher.Start sampleLib
      (HTTPWatcher.Start sampleLib ⟨sampleHTTPWatcher, 0⟩ sampleLocalFS
        (sampleEnv (sampleResponse 200 "" "" "foo") sampleTime [])).2.1
      sampleLocalFS (sampleEnv (sampleResponse 200 "" "" "foo") sampleTime [])).1 = none ∧
    (HTTPWatcher.Start sampleLib
      (HTTPWatcher.Start sampleLib ⟨sampleHTTPWatcher, 0⟩ sampleLocalFS
        (sampleEnv (sampleResponse 200 "" "" "foo") sampleTime [])).2.1
      sampleLocalFS (sampleEnv (sampleResponse 200 "" "" "foo") sampleTime [])).2.1.loops = 2 ∧
    (HTTPWatcher.Stop
      (HTTPWatcher.Start sampleLib ⟨sampleHTTPWatcher, 0⟩ sampleLocalFS
        (sampleEnv (sampleResponse 200 "" "" "foo") sampleTime [])).2.1).1
      = .returned (some .errStopped) := by
  decide

end watchfile
